import Mathlib

/-!
Shallow embedding of the ticket lifecycle controller of `src/sender.js`
(class `TicketSender`): evidence detection, the in-memory ticket registry,
the message and channel-creation handlers, and the delayed-closure path,
together with proofs about the specification's testable properties.

Modelling conventions:
* JavaScript `Map` objects (`activeTickets`, `pendingClosures`) are modelled
  as association lists with `Map.get`/`Map.set`/`Map.delete` semantics.
* Platform sends performed by the controller are recorded as `Sent` events;
  sends by the controller in the message path are modelled as succeeding
  (delivery failure of the closure send is modelled explicitly through
  `CloseEnv`, since the claims under scrutiny concern that path).
* The diagnostic message-id bookkeeping fields of a ticket
  (`initialMessageId`, `formMessageId`) are written by the source but never
  read for control flow (spec section 3 marks them diagnostics-only); they
  are elided from the `Ticket` record.
* Wall-clock instants are natural numbers (milliseconds); each event is
  processed at an explicit instant `now`.
-/

namespace Form2100

/-- Hexadecimal character class of the address pattern `0x[a-fA-F0-9]{40}`
used at sender.js line 318 (`evmAddressRegex`). -/
def isHexDigit (c : Char) : Bool :=
  c.isDigit || (decide (97 ≤ c.toNat) && decide (c.toNat ≤ 102)) ||
    (decide (65 ≤ c.toNat) && decide (c.toNat ≤ 70))

/-- `hexRun n l` holds when `l` starts with at least `n` hexadecimal
characters: the `[a-fA-F0-9]{40}` part of the regex, greedily checked at a
fixed position. -/
def hexRun : Nat → List Char → Bool
  | 0, _ => true
  | _ + 1, [] => false
  | n + 1, c :: cs => isHexDigit c && hexRun n cs

/-- Anchored match of the regex `0x[a-fA-F0-9]{40}` at the head of the
character list. -/
def matchEvmAt : List Char → Bool
  | c0 :: c1 :: rest => (c0 == '0') && (c1 == 'x') && hexRun 40 rest
  | _ => false

/-- Unanchored regex search: true when `0x[a-fA-F0-9]{40}` matches at some
position of the list, exactly as `String.prototype.match` reports at least
one match for the unanchored pattern. -/
def evmSearch : List Char → Bool
  | [] => false
  | c :: cs => matchEvmAt (c :: cs) || evmSearch cs

/-- `message.content.match(/0x[a-fA-F0-9]{40}/g)` produced at least one
match (sender.js lines 318-321). -/
def hasEvmAddressIn (s : String) : Bool :=
  evmSearch s.data

/-- One attachment of a platform message; the declared content type is
nullable on the platform (`attachment.contentType` may be null). -/
structure Attachment where
  contentType : Option String
deriving DecidableEq

/-- `pre` is a leading piece of `s`: the character-level meaning of
JavaScript's `String.prototype.startsWith`. -/
def strStartsWith (s pre : String) : Bool :=
  pre.data.isPrefixOf s.data

/-- `attachment.contentType && attachment.contentType.startsWith('image/')`
(sender.js line 350). -/
def isImageAttachment (a : Attachment) : Bool :=
  match a.contentType with
  | some t => strStartsWith t "image/"
  | none => false

/-- Some attachment of the message is declared as an image
(sender.js lines 339-358; the `attachments.size > 0` guard is equivalent to
the emptiness behaviour of the fold). -/
def hasImageIn (atts : List Attachment) : Bool :=
  atts.any isImageAttachment

/-- A message-created platform event (spec section 6): id, channel, author,
author-is-automated flag, text content, attachments, explicit mentions. The
platform delivers absent text as the empty string and absent attachment or
mention collections as empty collections. -/
structure Message where
  id : String
  channelId : String
  authorId : String
  authorBot : Bool
  content : String
  attachments : List Attachment
  mentions : List String
deriving DecidableEq

/-- A channel-created platform event: channel id and nullable parent
category id. -/
structure Channel where
  id : String
  parentId : Option String
deriving DecidableEq

/-- One tracked ticket record (`ticketData` built at sender.js
lines 185-193, mutated by `handleUserMessage`). -/
structure Ticket where
  channelId : String
  userTag : String
  createdAt : Nat
  awaitingResponse : Bool
  hasEvmAddress : Bool
  hasImage : Bool
  completedAt : Option Nat
deriving DecidableEq

/-- The statistics counters of `this.stats` that the ticket paths touch. -/
structure Stats where
  ticketsCreated : Nat
  ticketsCompleted : Nat
  ticketsClosed : Nat
  errors : Nat
deriving DecidableEq

/-- Configuration surface of the controller: target category
(`TICKET_CAT`, nullable) and the closure delay in milliseconds
(`CLOSE_HOURS * 60 * 60 * 1000`). -/
structure Config where
  ticketCategory : Option String
  closeDelayMs : Nat
deriving DecidableEq

/-- Messages the controller itself sends into channels. -/
inductive Sent where
  | initial (channelId : String) (userTag : String)
  | form (channelId : String)
  | closeCmd (channelId : String)
deriving DecidableEq

/-- Association-list model of a JavaScript `Map` keyed by channel id:
`Map.prototype.get`. -/
def mapLookup {α : Type} : List (String × α) → String → Option α
  | [], _ => none
  | (k, v) :: rest, c => if k = c then some v else mapLookup rest c

/-- Association-list model of `Map.prototype.set`: replace the value of an
existing key, otherwise append the binding. -/
def mapInsert {α : Type} : List (String × α) → String → α → List (String × α)
  | [], k, v => [(k, v)]
  | (k', v') :: rest, k, v =>
      if k' = k then (k, v) :: rest else (k', v') :: mapInsert rest k v

/-- Association-list model of `Map.prototype.delete`. -/
def mapRemove {α : Type} : List (String × α) → String → List (String × α)
  | [], _ => []
  | (k', v') :: rest, k =>
      if k' = k then mapRemove rest k else (k', v') :: mapRemove rest k

/-- The mutable state of a `TicketSender` instance: the registry
(`activeTickets`), the closed-channel log (`pendingClosures`, storing the
closure instant), the pending closure timers (channel id and scheduled fire
instant), and the statistics counters. -/
structure SenderState where
  activeTickets : List (String × Ticket)
  pendingClosures : List (String × Nat)
  timers : List (String × Nat)
  stats : Stats
deriving DecidableEq

/-- `extractUserTag` (sender.js lines 250-270): prefer the first explicit
mention, otherwise fall back to the message author; either way the tag is
the platform mention syntax around a user id. -/
def extractUserTag (m : Message) : String :=
  match m.mentions with
  | u :: _ => "<@" ++ u ++ ">"
  | [] => "<@" ++ m.authorId ++ ">"

/-- Acceptance condition of the one-shot listener installed by
`waitForFirstMessage` (sender.js line 229): the candidate message merely has
to be in the awaited channel; the author flag is not inspected. -/
def firstMessageAccepts (ch : Channel) (m : Message) : Bool :=
  m.channelId == ch.id

/-- The in-place evidence merge of `handleUserMessage` (sender.js
lines 314-368): set `hasEvmAddress` when the address regex matches the text,
then set `hasImage` when some attachment is an image; a flag that does not
newly fire is left untouched. -/
def mergeEvidence (t : Ticket) (m : Message) : Ticket :=
  let t1 := if hasEvmAddressIn m.content then { t with hasEvmAddress := true } else t
  if hasImageIn m.attachments then { t1 with hasImage := true } else t1

/-- `handleUserMessage` (sender.js lines 275-433): skip bot authors, skip
untracked channels, skip tickets no longer awaiting a response; otherwise
merge evidence and, when both flags hold afterwards, send the follow-up
form message, mark the ticket completed, bump the completed counter and
schedule the closure timer at `now + closeDelayMs`. -/
def handleUserMessage (cfg : Config) (st : SenderState) (m : Message)
    (now : Nat) : SenderState × List Sent :=
  if m.authorBot = true then (st, [])
  else
    match mapLookup st.activeTickets m.channelId with
    | none => (st, [])
    | some ticket =>
      if ticket.awaitingResponse = false then (st, [])
      else
        let t2 := mergeEvidence ticket m
        if t2.hasEvmAddress && t2.hasImage then
          let done : Ticket :=
            { t2 with awaitingResponse := false, completedAt := some now }
          ({ st with
              activeTickets := mapInsert st.activeTickets m.channelId done,
              timers := (m.channelId, now + cfg.closeDelayMs) :: st.timers,
              stats := { st.stats with
                ticketsCompleted := st.stats.ticketsCompleted + 1 } },
            [Sent.form m.channelId])
        else
          ({ st with
              activeTickets := mapInsert st.activeTickets m.channelId t2 }, [])

/-- `handleChannelCreation` (sender.js lines 127-209), with the outcome of
the bounded `waitForFirstMessage` passed in as `firstMsg` (`none` models the
10-second timeout expiring). Channels outside the target category are
ignored; otherwise the created counter is bumped, and when a first message
arrived, a requester tag is extracted (the empty-tag abort branch of
lines 166-172 is kept verbatim), the greeting is sent and a fresh record is
stored with `Map.set` — there is no duplicate-ticket check, so an existing
record for the channel is overwritten. -/
def handleChannelCreation (cfg : Config) (st : SenderState) (ch : Channel)
    (firstMsg : Option Message) (now : Nat) : SenderState × List Sent :=
  if ch.parentId ≠ cfg.ticketCategory then (st, [])
  else
    let st1 := { st with stats :=
      { st.stats with ticketsCreated := st.stats.ticketsCreated + 1 } }
    match firstMsg with
    | none => (st1, [])
    | some m =>
      let userTag := extractUserTag m
      if userTag = "" then (st1, [])
      else
        let fresh : Ticket :=
          { channelId := ch.id, userTag := userTag, createdAt := now,
            awaitingResponse := true, hasEvmAddress := false,
            hasImage := false, completedAt := none }
        ({ st1 with
            activeTickets := mapInsert st1.activeTickets ch.id fresh },
          [Sent.initial ch.id userTag])

/-- Outcome of the environment interactions inside `closeTicket`: the
channel resolves and the `$close` send succeeds; the cache misses and the
fetch returns nothing; the fetch throws; or the send throws. -/
inductive CloseEnv where
  | ok
  | notFound
  | fetchThrew
  | sendThrew
deriving DecidableEq

/-- `closeTicket` (sender.js lines 438-475). When the channel cannot be
resolved the function returns early, and when the send throws the catch
block is entered — in all three failure shapes the lines that delete the
ticket from `activeTickets` are never reached, so the registry is left
untouched (the thrown shapes bump the error counter via `logError`). Only
on a successful send is the ticket deleted, the closure logged in
`pendingClosures` and the closed counter bumped. -/
def closeTicket (env : CloseEnv) (st : SenderState) (channelId : String)
    (now : Nat) : SenderState × List Sent :=
  match env with
  | CloseEnv.notFound => (st, [])
  | CloseEnv.fetchThrew =>
      ({ st with stats := { st.stats with errors := st.stats.errors + 1 } }, [])
  | CloseEnv.sendThrew =>
      ({ st with stats := { st.stats with errors := st.stats.errors + 1 } }, [])
  | CloseEnv.ok =>
      ({ st with
          activeTickets := mapRemove st.activeTickets channelId,
          pendingClosures := mapInsert st.pendingClosures channelId now,
          stats := { st.stats with
            ticketsClosed := st.stats.ticketsClosed + 1 } },
        [Sent.closeCmd channelId])

/-- Some closure timer for the channel is still pending. -/
def hasTimer (st : SenderState) (c : String) : Bool :=
  st.timers.any (fun p => p.1 == c)

/-- Modelled from the spec: the `cancel(channelId)` operation of the
Closure Scheduler (spec section 4.4). The source schedules closures with a
bare `setTimeout` whose handle is never stored, so no cancellation code
exists under src/; per the spec the scheduler is keyed by channel id and
cancellation drops the pending entry. -/
def cancelClosure (st : SenderState) (c : String) : SenderState :=
  { st with timers := st.timers.filter (fun p => !(p.1 == c)) }

/-- The closure timer for channel `c` fires (the `setTimeout` callback of
sender.js lines 408-415 running `closeTicket`). Modelled from the spec for
the scheduler part: firing removes the channel's scheduling entry before
invoking the action (spec section 4.4), and a timer that is no longer
pending — already fired or cancelled — is a no-op. -/
def stepTimerFire (env : CloseEnv) (st : SenderState) (c : String)
    (now : Nat) : SenderState × List Sent :=
  if hasTimer st c then closeTicket env (cancelClosure st c) c now
  else (st, [])

/-- Processing of a sequence of timed message-created events by
`handleUserMessage`, collecting every message the controller sends. -/
def runMsgs (cfg : Config) : SenderState → List (Nat × Message) →
    SenderState × List Sent
  | st, [] => (st, [])
  | st, (now, m) :: rest =>
      ((runMsgs cfg (handleUserMessage cfg st m now).1 rest).1,
        (handleUserMessage cfg st m now).2 ++
          (runMsgs cfg (handleUserMessage cfg st m now).1 rest).2)

/-- Number of follow-up form sends into channel `c` among the recorded
sends. -/
def countForm (c : String) : List Sent → Nat
  | [] => 0
  | s :: rest =>
      (match s with
        | Sent.form c' => if c' = c then 1 else 0
        | _ => 0) + countForm c rest

/-- The specification's wording of address detection (spec section 4.1):
the text contains a substring consisting of the two characters `0x`
followed by exactly 40 hexadecimal characters. -/
def containsEvmAddressSpec (s : String) : Prop :=
  ∃ pre core post, s.data = pre ++ (['0', 'x'] ++ core) ++ post ∧
    core.length = 40 ∧ ∀ c ∈ core, isHexDigit c = true

theorem mapLookup_insert_self {α : Type} (l : List (String × α)) (k : String)
    (v : α) : mapLookup (mapInsert l k v) k = some v := by
  induction l with
  | nil => simp [mapInsert, mapLookup]
  | cons p rest ih =>
      obtain ⟨k', v'⟩ := p
      by_cases h : k' = k
      · simp [mapInsert, mapLookup, h]
      · simp [mapInsert, mapLookup, h, ih]

theorem mapLookup_insert_ne {α : Type} (l : List (String × α))
    (k k' : String) (v : α) (h : k' ≠ k) :
    mapLookup (mapInsert l k v) k' = mapLookup l k' := by
  have h2 : k ≠ k' := Ne.symm h
  induction l with
  | nil => simp [mapInsert, mapLookup, h2]
  | cons p rest ih =>
      obtain ⟨k0, v0⟩ := p
      by_cases h0 : k0 = k
      · simp [mapInsert, mapLookup, h0, h2]
      · simp [mapInsert, mapLookup, h0, ih]

theorem hum_bot (cfg : Config) (st : SenderState) (m : Message) (now : Nat)
    (h : m.authorBot = true) :
    handleUserMessage cfg st m now = (st, []) := by
  simp [handleUserMessage, h]

theorem hum_no_ticket (cfg : Config) (st : SenderState) (m : Message)
    (now : Nat) (h1 : m.authorBot = false)
    (h2 : mapLookup st.activeTickets m.channelId = none) :
    handleUserMessage cfg st m now = (st, []) := by
  simp [handleUserMessage, h1, h2]

theorem hum_not_awaiting (cfg : Config) (st : SenderState) (m : Message)
    (now : Nat) (t : Ticket) (h1 : m.authorBot = false)
    (h2 : mapLookup st.activeTickets m.channelId = some t)
    (h3 : t.awaitingResponse = false) :
    handleUserMessage cfg st m now = (st, []) := by
  simp [handleUserMessage, h1, h2, h3]

theorem hum_complete (cfg : Config) (st : SenderState) (m : Message)
    (now : Nat) (t : Ticket) (h1 : m.authorBot = false)
    (h2 : mapLookup st.activeTickets m.channelId = some t)
    (h3 : t.awaitingResponse = true)
    (h4 : ((mergeEvidence t m).hasEvmAddress &&
      (mergeEvidence t m).hasImage) = true) :
    handleUserMessage cfg st m now =
      ({ st with
          activeTickets := mapInsert st.activeTickets m.channelId
            { mergeEvidence t m with
                awaitingResponse := false, completedAt := some now },
          timers := (m.channelId, now + cfg.closeDelayMs) :: st.timers,
          stats := { st.stats with
            ticketsCompleted := st.stats.ticketsCompleted + 1 } },
        [Sent.form m.channelId]) := by
  simp [handleUserMessage, h1, h2, h3, h4]

theorem hum_progress (cfg : Config) (st : SenderState) (m : Message)
    (now : Nat) (t : Ticket) (h1 : m.authorBot = false)
    (h2 : mapLookup st.activeTickets m.channelId = some t)
    (h3 : t.awaitingResponse = true)
    (h4 : ((mergeEvidence t m).hasEvmAddress &&
      (mergeEvidence t m).hasImage) = false) :
    handleUserMessage cfg st m now =
      ({ st with
          activeTickets := mapInsert st.activeTickets m.channelId
            (mergeEvidence t m) }, []) := by
  simp [handleUserMessage, h1, h2, h3, h4]

theorem mergeEvidence_addr (t : Ticket) (m : Message) :
    (mergeEvidence t m).hasEvmAddress =
      (hasEvmAddressIn m.content || t.hasEvmAddress) := by
  unfold mergeEvidence
  cases h1 : hasEvmAddressIn m.content <;>
    cases h2 : hasImageIn m.attachments <;> simp [h1, h2]

theorem mergeEvidence_img (t : Ticket) (m : Message) :
    (mergeEvidence t m).hasImage =
      (hasImageIn m.attachments || t.hasImage) := by
  unfold mergeEvidence
  cases h1 : hasEvmAddressIn m.content <;>
    cases h2 : hasImageIn m.attachments <;> simp [h1, h2]

/-- Every step of `handleUserMessage` either sends nothing, or sends the
single follow-up form message while the channel's record is left completed
(no longer awaiting a response). -/
theorem hum_out (cfg : Config) (st : SenderState) (m : Message) (now : Nat) :
    (handleUserMessage cfg st m now).2 = [] ∨
    ((handleUserMessage cfg st m now).2 = [Sent.form m.channelId] ∧
      ∃ t', mapLookup (handleUserMessage cfg st m now).1.activeTickets
          m.channelId = some t' ∧ t'.awaitingResponse = false) := by
  cases h1 : m.authorBot with
  | true => rw [hum_bot cfg st m now h1]; exact Or.inl rfl
  | false =>
    cases h2 : mapLookup st.activeTickets m.channelId with
    | none => rw [hum_no_ticket cfg st m now h1 h2]; exact Or.inl rfl
    | some t =>
      cases h3 : t.awaitingResponse with
      | false => rw [hum_not_awaiting cfg st m now t h1 h2 h3]; exact Or.inl rfl
      | true =>
        cases h4 : ((mergeEvidence t m).hasEvmAddress &&
            (mergeEvidence t m).hasImage) with
        | false => rw [hum_progress cfg st m now t h1 h2 h3 h4]; exact Or.inl rfl
        | true =>
          rw [hum_complete cfg st m now t h1 h2 h3 h4]
          exact Or.inr ⟨rfl,
            ⟨{ mergeEvidence t m with
                awaitingResponse := false, completedAt := some now },
              mapLookup_insert_self st.activeTickets m.channelId _, rfl⟩⟩

/-- A message event never touches the record of a different channel. -/
theorem hum_lookup_ne (cfg : Config) (st : SenderState) (m : Message)
    (now : Nat) (c : String) (hc : m.channelId ≠ c) :
    mapLookup (handleUserMessage cfg st m now).1.activeTickets c =
      mapLookup st.activeTickets c := by
  have hc' : c ≠ m.channelId := Ne.symm hc
  cases h1 : m.authorBot with
  | true => rw [hum_bot cfg st m now h1]
  | false =>
    cases h2 : mapLookup st.activeTickets m.channelId with
    | none => rw [hum_no_ticket cfg st m now h1 h2]
    | some t =>
      cases h3 : t.awaitingResponse with
      | false => rw [hum_not_awaiting cfg st m now t h1 h2 h3]
      | true =>
        cases h4 : ((mergeEvidence t m).hasEvmAddress &&
            (mergeEvidence t m).hasImage) with
        | false =>
          rw [hum_progress cfg st m now t h1 h2 h3 h4]
          exact mapLookup_insert_ne st.activeTickets m.channelId c _ hc'
        | true =>
          rw [hum_complete cfg st m now t h1 h2 h3 h4]
          exact mapLookup_insert_ne st.activeTickets m.channelId c _ hc'

/-- A ticket whose response phase is over is never touched again by message
events: its record survives unchanged and no follow-up form message for its
channel is ever sent, for the whole remaining message trace. -/
theorem runMsgs_dead_frame (cfg : Config) (ms : List (Nat × Message)) :
    ∀ (st : SenderState) (c : String) (t : Ticket),
      mapLookup st.activeTickets c = some t → t.awaitingResponse = false →
      mapLookup (runMsgs cfg st ms).1.activeTickets c = some t ∧
        countForm c (runMsgs cfg st ms).2 = 0 := by
  induction ms with
  | nil => intro st c t hl ha; simp [runMsgs, countForm, hl]
  | cons e rest ih =>
    intro st c t hl ha
    obtain ⟨now, m⟩ := e
    by_cases hc : m.channelId = c
    · have hstep : handleUserMessage cfg st m now = (st, []) := by
        cases h1 : m.authorBot with
        | true => exact hum_bot cfg st m now h1
        | false =>
          exact hum_not_awaiting cfg st m now t h1 (hc ▸ hl) ha
      simp only [runMsgs, hstep]
      simpa [countForm] using ih st c t hl ha
    · have hpre : mapLookup (handleUserMessage cfg st m now).1.activeTickets c
          = some t := by
        rw [hum_lookup_ne cfg st m now c hc]; exact hl
      obtain ⟨hrest, hcount⟩ :=
        ih (handleUserMessage cfg st m now).1 c t hpre ha
      rcases hum_out cfg st m now with hout | ⟨hout, -⟩
      · simp only [runMsgs]
        refine ⟨hrest, ?_⟩
        simp [hout, hcount, countForm]
      · simp only [runMsgs]
        refine ⟨hrest, ?_⟩
        simp [hout, hcount, countForm, hc]

theorem countForm_append (c : String) (a b : List Sent) :
    countForm c (a ++ b) = countForm c a + countForm c b := by
  induction a with
  | nil => simp [countForm]
  | cons s rest ih => simp [countForm, ih]; omega

/-- Over any sequence of message events, at most one follow-up form message
is ever sent into a given channel. -/
theorem runMsgs_countForm_le_one (cfg : Config) (ms : List (Nat × Message)) :
    ∀ (st : SenderState) (c : String),
      countForm c (runMsgs cfg st ms).2 ≤ 1 := by
  induction ms with
  | nil => intro st c; simp [runMsgs, countForm]
  | cons e rest ih =>
    intro st c
    obtain ⟨now, m⟩ := e
    simp only [runMsgs, countForm_append]
    rcases hum_out cfg st m now with hout | ⟨hout, t', hpost, hdead⟩
    · simpa [hout, countForm] using ih (handleUserMessage cfg st m now).1 c
    · by_cases hc : m.channelId = c
      · subst hc
        obtain ⟨-, hzero⟩ := runMsgs_dead_frame cfg rest
          (handleUserMessage cfg st m now).1 m.channelId t' hpost hdead
        simp [hout, countForm, hzero]
      · simpa [hout, countForm, hc] using
          ih (handleUserMessage cfg st m now).1 c

/-- Single-step flag monotonicity: after any message event the record of a
tracked channel is still present and its evidence flags have not reverted. -/
theorem hum_monotone (cfg : Config) (st : SenderState) (m : Message)
    (now : Nat) (c : String) (t : Ticket)
    (hl : mapLookup st.activeTickets c = some t) :
    ∃ t', mapLookup (handleUserMessage cfg st m now).1.activeTickets c
        = some t' ∧
      (t.hasEvmAddress = true → t'.hasEvmAddress = true) ∧
      (t.hasImage = true → t'.hasImage = true) := by
  by_cases hc : m.channelId = c
  · subst hc
    cases h1 : m.authorBot with
    | true => exact ⟨t, by rw [hum_bot cfg st m now h1]; exact hl, id, id⟩
    | false =>
      cases h3 : t.awaitingResponse with
      | false =>
        exact ⟨t, by rw [hum_not_awaiting cfg st m now t h1 hl h3]; exact hl,
          id, id⟩
      | true =>
        cases h4 : ((mergeEvidence t m).hasEvmAddress &&
            (mergeEvidence t m).hasImage) with
        | false =>
          refine ⟨mergeEvidence t m, ?_, ?_, ?_⟩
          · rw [hum_progress cfg st m now t h1 hl h3 h4]
            exact mapLookup_insert_self st.activeTickets m.channelId _
          · intro h; rw [mergeEvidence_addr, h, Bool.or_true]
          · intro h; rw [mergeEvidence_img, h, Bool.or_true]
        | true =>
          refine ⟨{ mergeEvidence t m with
              awaitingResponse := false, completedAt := some now }, ?_, ?_, ?_⟩
          · rw [hum_complete cfg st m now t h1 hl h3 h4]
            exact mapLookup_insert_self st.activeTickets m.channelId _
          · intro h
            show (mergeEvidence t m).hasEvmAddress = true
            rw [mergeEvidence_addr, h, Bool.or_true]
          · intro h
            show (mergeEvidence t m).hasImage = true
            rw [mergeEvidence_img, h, Bool.or_true]
  · exact ⟨t, by rw [hum_lookup_ne cfg st m now c hc]; exact hl, id, id⟩

/-- Trace-level flag monotonicity over any sequence of message events. -/
theorem runMsgs_monotone (cfg : Config) (ms : List (Nat × Message)) :
    ∀ (st : SenderState) (c : String) (t : Ticket),
      mapLookup st.activeTickets c = some t →
      ∃ t', mapLookup (runMsgs cfg st ms).1.activeTickets c = some t' ∧
        (t.hasEvmAddress = true → t'.hasEvmAddress = true) ∧
        (t.hasImage = true → t'.hasImage = true) := by
  induction ms with
  | nil => intro st c t hl; exact ⟨t, by simpa [runMsgs] using hl, id, id⟩
  | cons e rest ih =>
    intro st c t hl
    obtain ⟨now, m⟩ := e
    obtain ⟨t1, hl1, ha1, hi1⟩ := hum_monotone cfg st m now c t hl
    obtain ⟨t2, hl2, ha2, hi2⟩ :=
      ih (handleUserMessage cfg st m now).1 c t1 hl1
    exact ⟨t2, by simpa [runMsgs] using hl2,
      fun h => ha2 (ha1 h), fun h => hi2 (hi1 h)⟩

theorem hexRun_iff (n : Nat) : ∀ (l : List Char),
    hexRun n l = true ↔
      ∃ core post, l = core ++ post ∧ core.length = n ∧
        ∀ c ∈ core, isHexDigit c = true := by
  induction n with
  | zero =>
    intro l
    constructor
    · intro _; exact ⟨[], l, rfl, rfl, by intro c hc; cases hc⟩
    · intro _; rfl
  | succ n ih =>
    intro l
    cases l with
    | nil =>
      constructor
      · intro h; cases h
      · rintro ⟨core, post, heq, hlen, -⟩
        rcases List.append_eq_nil.mp heq.symm with ⟨hc, -⟩
        rw [hc] at hlen
        cases hlen
    | cons c cs =>
      constructor
      · intro h
        rw [show hexRun (n + 1) (c :: cs) = (isHexDigit c && hexRun n cs)
          from rfl, Bool.and_eq_true] at h
        obtain ⟨core, post, heq, hlen, hhex⟩ := (ih cs).mp h.2
        refine ⟨c :: core, post, by rw [heq]; rfl, by simp [hlen], ?_⟩
        intro d hd
        rcases List.mem_cons.mp hd with rfl | hd
        · exact h.1
        · exact hhex d hd
      · rintro ⟨core, post, heq, hlen, hhex⟩
        cases core with
        | nil => cases hlen
        | cons c0 core' =>
          rw [List.cons_append] at heq
          injection heq with h1 h2
          rw [show hexRun (n + 1) (c :: cs) = (isHexDigit c && hexRun n cs)
            from rfl, Bool.and_eq_true]
          constructor
          · rw [h1]; exact hhex c0 (by simp)
          · exact (ih cs).mpr ⟨core', post, h2,
              by simpa using hlen, fun d hd => hhex d (by simp [hd])⟩

theorem matchEvmAt_iff (l : List Char) :
    matchEvmAt l = true ↔
      ∃ core post, l = '0' :: 'x' :: (core ++ post) ∧ core.length = 40 ∧
        ∀ c ∈ core, isHexDigit c = true := by
  cases l with
  | nil =>
    constructor
    · intro h; cases h
    · rintro ⟨core, post, heq, -, -⟩; cases heq
  | cons c0 rest0 =>
    cases rest0 with
    | nil =>
      constructor
      · intro h; cases h
      · rintro ⟨core, post, heq, -, -⟩; cases heq
    | cons c1 rest =>
      rw [show matchEvmAt (c0 :: c1 :: rest) =
        ((c0 == '0') && (c1 == 'x') && hexRun 40 rest) from rfl]
      simp only [Bool.and_eq_true, beq_iff_eq]
      constructor
      · rintro ⟨⟨h0, h1⟩, hrun⟩
        obtain ⟨core, post, heq, hlen, hhex⟩ := (hexRun_iff 40 rest).mp hrun
        exact ⟨core, post, by rw [h0, h1, heq], hlen, hhex⟩
      · rintro ⟨core, post, heq, hlen, hhex⟩
        injection heq with h0 heq
        injection heq with h1 heq
        exact ⟨⟨h0, h1⟩,
          (hexRun_iff 40 rest).mpr ⟨core, post, heq, hlen, hhex⟩⟩

theorem evmSearch_iff : ∀ (l : List Char),
    evmSearch l = true ↔
      ∃ pre core post, l = pre ++ ('0' :: 'x' :: (core ++ post)) ∧
        core.length = 40 ∧ ∀ c ∈ core, isHexDigit c = true := by
  intro l
  induction l with
  | nil =>
    constructor
    · intro h; cases h
    · rintro ⟨pre, core, post, heq, -, -⟩
      cases pre <;> cases heq
  | cons c cs ih =>
    rw [show evmSearch (c :: cs) = (matchEvmAt (c :: cs) || evmSearch cs)
      from rfl, Bool.or_eq_true]
    constructor
    · rintro (h | h)
      · obtain ⟨core, post, heq, hlen, hhex⟩ := (matchEvmAt_iff _).mp h
        exact ⟨[], core, post, by rw [heq]; rfl, hlen, hhex⟩
      · obtain ⟨pre, core, post, heq, hlen, hhex⟩ := ih.mp h
        exact ⟨c :: pre, core, post, by rw [heq]; rfl, hlen, hhex⟩
    · rintro ⟨pre, core, post, heq, hlen, hhex⟩
      cases pre with
      | nil =>
        exact Or.inl ((matchEvmAt_iff _).mpr
          ⟨core, post, by simpa using heq, hlen, hhex⟩)
      | cons p pre' =>
        rw [List.cons_append] at heq
        injection heq with h1 h2
        exact Or.inr (ih.mpr ⟨pre', core, post, h2, hlen, hhex⟩)

theorem closeTicket_timers (env : CloseEnv) (st : SenderState) (c : String)
    (now : Nat) : (closeTicket env st c now).1.timers = st.timers := by
  cases env <;> rfl

theorem hasTimer_cancel (st : SenderState) (c : String) :
    hasTimer (cancelClosure st c) c = false := by
  show (st.timers.filter (fun p => !(p.1 == c))).any (fun p => p.1 == c)
    = false
  induction st.timers with
  | nil => rfl
  | cons p rest ih =>
      cases h : (p.1 == c) with
      | true => simp [List.filter, h, ih]
      | false => simp [List.filter, h, ih]

theorem stepTimerFire_of_no_timer (env : CloseEnv) (st : SenderState)
    (c : String) (now : Nat) (h : hasTimer st c = false) :
    stepTimerFire env st c now = (st, []) := by
  simp [stepTimerFire, h]

/-- After a closure timer for `c` has fired — with any outcome — no timer
for `c` is pending any more. -/
theorem stepTimerFire_consumes (env : CloseEnv) (st : SenderState)
    (c : String) (now : Nat) :
    hasTimer (stepTimerFire env st c now).1 c = false := by
  unfold stepTimerFire
  cases h : hasTimer st c with
  | false => simpa using h
  | true =>
      simp only [if_pos rfl]
      show ((closeTicket env (cancelClosure st c) c now).1.timers.any
        (fun p => p.1 == c)) = false
      rw [closeTicket_timers]
      exact hasTimer_cancel st c

/- Concrete fixtures used by the witnesses and counterexamples. -/

def cfgA : Config := { ticketCategory := some "cat", closeDelayMs := 3600000 }

def tkA : Ticket :=
  { channelId := "c1", userTag := "<@u1>", createdAt := 0,
    awaitingResponse := true, hasEvmAddress := false, hasImage := false,
    completedAt := none }

def statsZ : Stats :=
  { ticketsCreated := 1, ticketsCompleted := 0, ticketsClosed := 0,
    errors := 0 }

def stA : SenderState :=
  { activeTickets := [("c1", tkA)], pendingClosures := [], timers := [],
    stats := statsZ }

def msgA : Message :=
  { id := "m1", channelId := "c1", authorId := "u1", authorBot := false,
    content := "here 0xABCDEF0123456789ABCDEF0123456789ABCDEF01",
    attachments := [{ contentType := some "image/png" }], mentions := [] }

def tkDone : Ticket :=
  { channelId := "c1", userTag := "<@u1>", createdAt := 0,
    awaitingResponse := false, hasEvmAddress := true, hasImage := true,
    completedAt := some 5 }

def stB : SenderState :=
  { activeTickets := [("c1", tkDone)], pendingClosures := [],
    timers := [("c1", 3600005)], stats := statsZ }

def chC : Channel := { id := "c1", parentId := some "cat" }

def tkEvm : Ticket :=
  { channelId := "c1", userTag := "<@u1>", createdAt := 0,
    awaitingResponse := true, hasEvmAddress := true, hasImage := false,
    completedAt := none }

def stC : SenderState :=
  { activeTickets := [("c1", tkEvm)], pendingClosures := [], timers := [],
    stats := statsZ }

def msgC : Message :=
  { id := "m2", channelId := "c1", authorId := "u2", authorBot := false,
    content := "hello again", attachments := [], mentions := [] }

def botMsg : Message :=
  { id := "mb", channelId := "c1", authorId := "bot9", authorBot := true,
    content := "Welcome to your ticket", attachments := [], mentions := [] }

def statsNil : Stats :=
  { ticketsCreated := 0, ticketsCompleted := 0, ticketsClosed := 0,
    errors := 0 }

def stEmpty : SenderState :=
  { activeTickets := [], pendingClosures := [], timers := [],
    stats := statsNil }

def msgPlain : Message :=
  { id := "m3", channelId := "c1", authorId := "u1", authorBot := false,
    content := "thanks, done", attachments := [], mentions := [] }

theorem extractUserTag_ne_empty (m : Message) : extractUserTag m ≠ "" := by
  have key : ∀ u : String, ("<@" ++ u ++ ">") ≠ "" := by
    intro u h
    have hd : ("<@" ++ u ++ ">").data = '<' :: '@' :: (u.data ++ ['>']) := rfl
    rw [h] at hd
    exact List.noConfusion hd
  unfold extractUserTag
  cases m.mentions with
  | nil => exact key m.authorId
  | cons u rest => exact key u

theorem handleChannelCreation_with_message (cfg : Config) (st : SenderState)
    (ch : Channel) (m : Message) (now : Nat)
    (h : ch.parentId = cfg.ticketCategory) :
    handleChannelCreation cfg st ch (some m) now =
      ({ st with
          activeTickets := mapInsert st.activeTickets ch.id
            { channelId := ch.id, userTag := extractUserTag m,
              createdAt := now, awaitingResponse := true,
              hasEvmAddress := false, hasImage := false,
              completedAt := none },
          stats := { st.stats with
            ticketsCreated := st.stats.ticketsCreated + 1 } },
        [Sent.initial ch.id (extractUserTag m)]) := by
  simp [handleChannelCreation, h, extractUserTag_ne_empty m]

/-- Claim C1: for every tracked ticket, the Completed transition (sending
the follow-up notice, setting `completedAt`, incrementing the completed
count) occurs if and only if both evidence flags `hasEvmAddress` and
`hasImage` are true after merging a qualifying message, and over any
sequence of message events at most one follow-up notice is ever sent into
the ticket's channel, so reaching Completed triggers exactly one follow-up
send over the ticket's lifetime. -/
theorem c1_completion_iff_both_flags_and_single_send :
    (∀ (cfg : Config) (st : SenderState) (m : Message) (now : Nat)
        (t : Ticket),
      m.authorBot = false →
      mapLookup st.activeTickets m.channelId = some t →
      t.awaitingResponse = true →
      (((mergeEvidence t m).hasEvmAddress = true ∧
          (mergeEvidence t m).hasImage = true) ↔
        ((handleUserMessage cfg st m now).2 = [Sent.form m.channelId] ∧
          mapLookup (handleUserMessage cfg st m now).1.activeTickets
              m.channelId =
            some { mergeEvidence t m with
              awaitingResponse := false, completedAt := some now } ∧
          (handleUserMessage cfg st m now).1.stats.ticketsCompleted =
            st.stats.ticketsCompleted + 1))) ∧
    (∀ (cfg : Config) (st : SenderState) (ms : List (Nat × Message))
        (c : String),
      countForm c (runMsgs cfg st ms).2 ≤ 1) := by
  constructor
  · intro cfg st m now t h1 h2 h3
    cases h4 : ((mergeEvidence t m).hasEvmAddress &&
        (mergeEvidence t m).hasImage) with
    | true =>
      rw [hum_complete cfg st m now t h1 h2 h3 h4]
      constructor
      · intro _
        exact ⟨rfl, mapLookup_insert_self st.activeTickets m.channelId _, rfl⟩
      · intro _
        exact by simpa using h4
    | false =>
      constructor
      · rintro ⟨ha, hi⟩
        rw [ha, hi] at h4
        cases h4
      · rintro ⟨hout, -, -⟩
        rw [hum_progress cfg st m now t h1 h2 h3 h4] at hout
        cases hout
  · intro cfg st ms c
    exact runMsgs_countForm_le_one cfg ms st c

/-- Witness for C1 at a concrete completing message. -/
theorem c1_witness :
    msgA.authorBot = false ∧ tkA.awaitingResponse = true ∧
    (handleUserMessage cfgA stA msgA 5).2 = [Sent.form "c1"] ∧
    countForm "c1" (runMsgs cfgA stA [(5, msgA)]).2 ≤ 1 :=
  ⟨rfl, rfl,
    ((c1_completion_iff_both_flags_and_single_send.1 cfgA stA msgA 5 tkA
      rfl (by decide) rfl).mp ⟨by decide, by decide⟩).1,
    c1_completion_iff_both_flags_and_single_send.2 cfgA stA [(5, msgA)] "c1"⟩

/-- Counterexample to claim C2: when the closure timer's attempt cannot
resolve the channel, `closeTicket` returns before the deletion line, so the
ticket is still in the Registry afterwards — the claim asserts it would be
removed. -/
theorem c2_counterexample :
    mapLookup (closeTicket CloseEnv.notFound stB "c1" 99).1.activeTickets
      "c1" = some tkDone := by
  decide

/-- Claim C2 as amended: when the closure attempt fails — the channel
cannot be resolved (not in cache and fetch fails or returns nothing) or the
closure send throws — the failure is logged but the ticket is NOT removed
from the Registry; removal happens only on a successful send. No retry is
scheduled and no closure send is recorded on failure. -/
theorem c2_closure_failure_keeps_ticket (env : CloseEnv) (st : SenderState)
    (c : String) (now : Nat) (h : env ≠ CloseEnv.ok) :
    (closeTicket env st c now).1.activeTickets = st.activeTickets ∧
    (closeTicket env st c now).1.timers = st.timers ∧
    (closeTicket env st c now).2 = [] := by
  cases env with
  | ok => exact absurd rfl h
  | notFound => exact ⟨rfl, rfl, rfl⟩
  | fetchThrew => exact ⟨rfl, rfl, rfl⟩
  | sendThrew => exact ⟨rfl, rfl, rfl⟩

/-- Witness for the amended C2 at a concrete failed closure. -/
theorem c2_witness :
    CloseEnv.notFound ≠ CloseEnv.ok ∧
    ((closeTicket CloseEnv.notFound stB "c1" 99).1.activeTickets =
        stB.activeTickets ∧
      (closeTicket CloseEnv.notFound stB "c1" 99).1.timers = stB.timers ∧
      (closeTicket CloseEnv.notFound stB "c1" 99).2 = []) :=
  ⟨by decide,
    c2_closure_failure_keeps_ticket CloseEnv.notFound stB "c1" 99 (by decide)⟩

/-- Counterexample to claim C3: with a live ticket for channel c1 that
already holds address evidence, a second channel-created invocation whose
first-message wait is satisfied sends a second greeting and replaces the
existing record — the claim asserts the second invocation is a no-op. -/
theorem c3_counterexample :
    (handleChannelCreation cfgA stC chC (some msgC) 7).2 =
      [Sent.initial "c1" "<@u2>"] ∧
    mapLookup (handleChannelCreation cfgA stC chC (some msgC) 7).1.activeTickets
      "c1" ≠ some tkEvm := by
  exact ⟨by decide, by decide⟩

/-- Claim C3 as amended: the channel-created handler performs no duplicate
check, so a second event for the same channel re-runs the whole flow: if
the first-message wait times out it is a no-op on the Registry and sends
nothing, but if a message arrives it sends a second greeting and overwrites
the existing ticket record with a fresh one whose evidence flags are reset
to false; no error is raised in either case. -/
theorem c3_duplicate_creation_regreets_and_overwrites :
    (∀ (cfg : Config) (st : SenderState) (ch : Channel) (now : Nat),
      (handleChannelCreation cfg st ch none now).1.activeTickets =
        st.activeTickets ∧
      (handleChannelCreation cfg st ch none now).2 = []) ∧
    (∀ (cfg : Config) (st : SenderState) (ch : Channel) (m : Message)
        (now : Nat),
      ch.parentId = cfg.ticketCategory →
      (handleChannelCreation cfg st ch (some m) now).2 =
        [Sent.initial ch.id (extractUserTag m)] ∧
      mapLookup
          (handleChannelCreation cfg st ch (some m) now).1.activeTickets
          ch.id =
        some { channelId := ch.id, userTag := extractUserTag m,
               createdAt := now, awaitingResponse := true,
               hasEvmAddress := false, hasImage := false,
               completedAt := none }) := by
  constructor
  · intro cfg st ch now
    by_cases h : ch.parentId = cfg.ticketCategory <;>
      simp [handleChannelCreation, h]
  · intro cfg st ch m now h
    rw [handleChannelCreation_with_message cfg st ch m now h]
    exact ⟨rfl, mapLookup_insert_self st.activeTickets ch.id _⟩

/-- Witness for the amended C3 at the concrete duplicate creation. -/
theorem c3_witness :
    chC.parentId = cfgA.ticketCategory ∧
    mapLookup (handleChannelCreation cfgA stC chC (some msgC) 7).1.activeTickets
      "c1" =
      some { channelId := "c1", userTag := "<@u2>", createdAt := 7,
             awaitingResponse := true, hasEvmAddress := false,
             hasImage := false, completedAt := none } := by
  refine ⟨by decide, ?_⟩
  have h := (c3_duplicate_creation_regreets_and_overwrites.2
    cfgA stC chC msgC 7 (by decide)).2
  exact h.trans (by decide)

/-- Counterexample to claim C4: a bot-authored message in the awaited
channel satisfies the first-message wait (its acceptance check looks only
at the channel id) and, fed to the creation flow, triggers the greeting and
ticket creation — the claim asserts bot messages never satisfy that wait. -/
theorem c4_counterexample :
    botMsg.authorBot = true ∧
    firstMessageAccepts chC botMsg = true ∧
    (handleChannelCreation cfgA stEmpty chC (some botMsg) 3).2 =
      [Sent.initial "c1" "<@bot9>"] ∧
    mapLookup (handleChannelCreation cfgA stEmpty chC (some botMsg)
      3).1.activeTickets "c1" ≠ none := by
  exact ⟨rfl, by decide, by decide, by decide⟩

/-- Claim C4 as amended: bot-authored messages are filtered before any
evidence processing — `handleUserMessage` returns with the state untouched
and nothing sent — but the first-message wait of the creation flow accepts
any message whose channel matches, regardless of the author's automated
flag, so a bot message can trigger greeting and ticket creation. -/
theorem c4_bot_filter_covers_messages_not_first_wait :
    (∀ (cfg : Config) (st : SenderState) (m : Message) (now : Nat),
      m.authorBot = true → handleUserMessage cfg st m now = (st, [])) ∧
    (∀ (ch : Channel) (m : Message),
      firstMessageAccepts ch m = true ↔ m.channelId = ch.id) := by
  constructor
  · intro cfg st m now h
    exact hum_bot cfg st m now h
  · intro ch m
    simp [firstMessageAccepts]

/-- Witness for the amended C4 at a concrete bot message. -/
theorem c4_witness :
    botMsg.authorBot = true ∧
    handleUserMessage cfgA stA botMsg 9 = (stA, []) :=
  ⟨rfl, c4_bot_filter_covers_messages_not_first_wait.1 cfgA stA botMsg 9 rfl⟩

/-- Claim C5: evidence detection is a total classification — on empty (the
platform's encoding of missing) text it reports no address, on an empty
attachment list it reports no image, and for every input it returns a
Boolean verdict rather than raising an error. -/
theorem c5_detection_total_empty_is_no_evidence :
    hasEvmAddressIn "" = false ∧ hasImageIn ([] : List Attachment) = false ∧
    ∀ (s : String) (atts : List Attachment),
      (hasEvmAddressIn s = false ∨ hasEvmAddressIn s = true) ∧
      (hasImageIn atts = false ∨ hasImageIn atts = true) := by
  refine ⟨rfl, rfl, ?_⟩
  intro s atts
  exact ⟨(Bool.eq_false_or_eq_true (hasEvmAddressIn s)).symm,
    (Bool.eq_false_or_eq_true (hasImageIn atts)).symm⟩

/-- Claim C6: address detection returns true if and only if the text
contains a substring consisting of the two characters `0x` followed by
exactly 40 hexadecimal characters; because the verdict is one Boolean,
several matching substrings in one message yield the same single true
signal as one match. -/
theorem c6_address_detection_iff_substring (s : String) :
    hasEvmAddressIn s = true ↔ containsEvmAddressSpec s := by
  rw [hasEvmAddressIn, evmSearch_iff s.data]
  unfold containsEvmAddressSpec
  constructor
  · rintro ⟨pre, core, post, heq, hlen, hhex⟩
    exact ⟨pre, core, post, by rw [heq]; simp, hlen, hhex⟩
  · rintro ⟨pre, core, post, heq, hlen, hhex⟩
    exact ⟨pre, core, post, by rw [heq]; simp, hlen, hhex⟩

/-- Claim C7: over every sequence of message events processed while a
ticket is in the Registry, the evidence flags `hasEvmAddress` and
`hasImage` are monotone — each can move from false to true but never from
true back to false. -/
theorem c7_evidence_flags_monotone (cfg : Config) (st : SenderState)
    (ms : List (Nat × Message)) (c : String) (t : Ticket)
    (h : mapLookup st.activeTickets c = some t) :
    ∃ t', mapLookup (runMsgs cfg st ms).1.activeTickets c = some t' ∧
      (t.hasEvmAddress = true → t'.hasEvmAddress = true) ∧
      (t.hasImage = true → t'.hasImage = true) :=
  runMsgs_monotone cfg ms st c t h

/-- Witness for C7 at a concrete ticket that already holds address
evidence, across a two-message trace. -/
theorem c7_witness :
    mapLookup stC.activeTickets "c1" = some tkEvm ∧
    ∃ t', mapLookup
        (runMsgs cfgA stC [(9, msgPlain), (10, msgA)]).1.activeTickets "c1" =
        some t' ∧
      (tkEvm.hasEvmAddress = true → t'.hasEvmAddress = true) ∧
      (tkEvm.hasImage = true → t'.hasImage = true) :=
  ⟨by decide,
    c7_evidence_flags_monotone cfgA stC [(9, msgPlain), (10, msgA)] "c1"
      tkEvm (by decide)⟩

/-- Claim C8: completing a ticket schedules exactly one closure timer, at
the completion instant plus the configured close delay; a closure timer
fires at most once (firing consumes the scheduling entry, so a second
firing attempt is a no-op); and cancelling the channel's entry before the
timer fires prevents the closure send from ever happening. The keyed
schedule/cancel scheduler itself is modelled from spec section 4.4, since
the source drives closure with a bare `setTimeout` whose handle is never
stored. -/
theorem c8_closure_timer_schedule_fire_cancel :
    (∀ (cfg : Config) (st : SenderState) (m : Message) (now : Nat)
        (t : Ticket),
      m.authorBot = false →
      mapLookup st.activeTickets m.channelId = some t →
      t.awaitingResponse = true →
      ((mergeEvidence t m).hasEvmAddress &&
        (mergeEvidence t m).hasImage) = true →
      (handleUserMessage cfg st m now).1.timers =
        (m.channelId, now + cfg.closeDelayMs) :: st.timers) ∧
    (∀ (env env2 : CloseEnv) (st : SenderState) (c : String)
        (now now2 : Nat),
      stepTimerFire env2 (stepTimerFire env st c now).1 c now2 =
        ((stepTimerFire env st c now).1, [])) ∧
    (∀ (env : CloseEnv) (st : SenderState) (c : String) (now : Nat),
      stepTimerFire env (cancelClosure st c) c now =
        (cancelClosure st c, [])) := by
  refine ⟨?_, ?_, ?_⟩
  · intro cfg st m now t h1 h2 h3 h4
    rw [hum_complete cfg st m now t h1 h2 h3 h4]
  · intro env env2 st c now now2
    exact stepTimerFire_of_no_timer env2 _ c now2
      (stepTimerFire_consumes env st c now)
  · intro env st c now
    exact stepTimerFire_of_no_timer env _ c now (hasTimer_cancel st c)

/-- Witness for C8 at the concrete completing message. -/
theorem c8_witness :
    msgA.authorBot = false ∧
    (handleUserMessage cfgA stA msgA 5).1.timers = [("c1", 3600005)] := by
  refine ⟨rfl, ?_⟩
  have h := c8_closure_timer_schedule_fire_cancel.1 cfgA stA msgA 5 tkA
    rfl (by decide) rfl (by decide)
  rw [h]
  decide

/-- Claim C9: for every first message, requester-tag extraction produces a
non-empty tag (the first explicit mention if any, otherwise the author), so
the creation flow's abort branch for a missing user tag is unreachable:
with a first message present and a matching category, the greeting is
always sent. -/
theorem c9_requester_tag_nonempty_abort_unreachable :
    (∀ m : Message, extractUserTag m ≠ "") ∧
    (∀ (cfg : Config) (st : SenderState) (ch : Channel) (m : Message)
        (now : Nat),
      ch.parentId = cfg.ticketCategory →
      (handleChannelCreation cfg st ch (some m) now).2 =
        [Sent.initial ch.id (extractUserTag m)]) := by
  constructor
  · exact extractUserTag_ne_empty
  · intro cfg st ch m now h
    rw [handleChannelCreation_with_message cfg st ch m now h]

/-- Witness for C9 at a concrete first message without mentions. -/
theorem c9_witness :
    extractUserTag msgC ≠ "" ∧
    chC.parentId = cfgA.ticketCategory ∧
    (handleChannelCreation cfgA stEmpty chC (some msgC) 7).2 =
      [Sent.initial "c1" "<@u2>"] := by
  refine ⟨c9_requester_tag_nonempty_abort_unreachable.1 msgC, by decide, ?_⟩
  have h := c9_requester_tag_nonempty_abort_unreachable.2
    cfgA stEmpty chC msgC 7 (by decide)
  rw [h]
  decide

/-- Claim C10: once a ticket's `awaitingResponse` field is false, every
subsequent message event on its channel returns with the whole controller
state unchanged and nothing sent, and across any further message trace the
record survives verbatim with no follow-up send into its channel. -/
theorem c10_completed_ticket_frame :
    (∀ (cfg : Config) (st : SenderState) (m : Message) (now : Nat)
        (t : Ticket),
      mapLookup st.activeTickets m.channelId = some t →
      t.awaitingResponse = false →
      handleUserMessage cfg st m now = (st, [])) ∧
    (∀ (cfg : Config) (st : SenderState) (ms : List (Nat × Message))
        (c : String) (t : Ticket),
      mapLookup st.activeTickets c = some t → t.awaitingResponse = false →
      mapLookup (runMsgs cfg st ms).1.activeTickets c = some t ∧
        countForm c (runMsgs cfg st ms).2 = 0) := by
  constructor
  · intro cfg st m now t h2 h3
    cases h1 : m.authorBot with
    | true => exact hum_bot cfg st m now h1
    | false => exact hum_not_awaiting cfg st m now t h1 h2 h3
  · intro cfg st ms c t hl ha
    exact runMsgs_dead_frame cfg ms st c t hl ha

/-- Witness for C10 at a concrete completed ticket. -/
theorem c10_witness :
    mapLookup stB.activeTickets msgPlain.channelId = some tkDone ∧
    tkDone.awaitingResponse = false ∧
    handleUserMessage cfgA stB msgPlain 9 = (stB, []) :=
  ⟨by decide, rfl,
    c10_completed_ticket_frame.1 cfgA stB msgPlain 9 tkDone
      (by decide) rfl⟩

end Form2100
